import Mathlib

/-!
Shallow embedding of the kubernetes-dashboard Flask service
(`systeminfo.py`) and proofs about its seven HTTP handlers.

Modelling conventions:
* JSON values are the inductive `JValue`; Python truthiness is `truthy`.
* A backend call (a Kubernetes client call, a psutil read, the scanner
  subprocess) is passed to each handler as an explicit outcome or oracle:
  `Except PyExc a` for a call that either returns `a` or raises, where
  `PyExc` distinguishes `kubernetes.client.rest.ApiException` (which carries
  a `reason` and a `str(e)` rendering) from every other `Exception`.
* A handler's result is a `HandlerOutcome`: either `response status body`
  (the handler returned `jsonify(body), status`) or `uncaught e` (an
  exception escaped the handler's own `try`/`except` blocks).
* Query strings are association lists `List (String × String)`; `argsGet`
  is `request.args.get(key, dflt)` (first binding wins, default only when
  the key is absent). JSON object bodies are `List (String × JValue)`;
  `dictGet` is Python `dict.get(key)` returning `None` (`JValue.null`)
  when absent.
* Numbers in JSON bodies are rationals (`ℚ`); the handlers never do
  arithmetic on the OS counters, they only copy them, so this is exact.
-/

namespace SystemInfo

/-- A JSON value as produced by `jsonify`. -/
inductive JValue where
  | null : JValue
  | bool : Bool → JValue
  | num : ℚ → JValue
  | str : String → JValue
  | arr : List JValue → JValue
  | obj : List (String × JValue) → JValue

/-- A Python exception as seen by the handlers: either a
`kubernetes.client.rest.ApiException` (carrying `e.reason` and the text of
`str(e)`) or any other `Exception` (carrying the text of `str(e)`). -/
inductive PyExc where
  | apiException (reason : String) (srepr : String)
  | otherException (msg : String)

/-- What a Flask view function does on one request: return a JSON body
with an HTTP status, or let an exception escape the handler. -/
inductive HandlerOutcome where
  | response (status : Nat) (body : JValue)
  | uncaught (exc : PyExc)

/-- True exactly when the handler produced an HTTP response (no exception
escaped it). -/
def isResponse : HandlerOutcome → Bool
  | .response _ _ => true
  | .uncaught _ => false

/-- Python truthiness of a JSON value (`if not image: ...`). -/
def truthy : JValue → Bool
  | .null => false
  | .bool b => b
  | .num q => q != 0
  | .str s => s != ""
  | .arr xs => !xs.isEmpty
  | .obj kvs => !kvs.isEmpty

/-- `request.args.get(key, dflt)`: the first binding of `key` in the query
string, or `dflt` when `key` is absent.  An explicitly supplied empty value
is returned as the empty string, not replaced by the default. -/
def argsGet (args : List (String × String)) (key dflt : String) : String :=
  match args.find? (fun kv => kv.1 == key) with
  | some kv => kv.2
  | none => dflt

/-- Python `dict.get(key)` on a JSON object: the first binding of `key`, or
`None` (modelled `JValue.null`) when absent. -/
def dictGet (d : List (String × JValue)) (key : String) : JValue :=
  match d.find? (fun kv => kv.1 == key) with
  | some kv => kv.2
  | none => .null

/-! ### `/health` -/

/-- `health_check`: `return jsonify({'status': 'ok'}), 200`. -/
def health_check : HandlerOutcome :=
  .response 200 (.obj [("status", .str "ok")])

/-! ### `/system_info` -/

/-- The result of `psutil.virtual_memory()` as the handler reads it. -/
structure VirtualMemory where
  total : ℚ
  available : ℚ
  used : ℚ
  percent : ℚ

/-- The result of `psutil.disk_usage('/')` as the handler reads it. -/
structure DiskUsage where
  total : ℚ
  used : ℚ
  free : ℚ
  percent : ℚ

/-- The successful `/system_info` body: every field is the corresponding
OS counter copied verbatim. -/
def systemInfoBody (mem : VirtualMemory) (disk : DiskUsage) (cpu boot : ℚ) : JValue :=
  .obj [
    ("cpu_percent", .num cpu),
    ("memory_usage", .obj [
      ("total", .num mem.total),
      ("available", .num mem.available),
      ("used", .num mem.used),
      ("percent", .num mem.percent)]),
    ("disk_usage", .obj [
      ("total", .num disk.total),
      ("used", .num disk.used),
      ("free", .num disk.free),
      ("percent", .num disk.percent)]),
    ("boot_time", .num boot)]

/-- `get_system_info`: reads `psutil.virtual_memory()`, `psutil.disk_usage('/')`,
`psutil.cpu_percent(interval=1)` and `psutil.boot_time()` inside one `try`;
any exception from any of the four reads is caught by `except Exception`
and mapped to a generic 500. -/
def get_system_info (virtualMemory : Except PyExc VirtualMemory)
    (diskUsage : Except PyExc DiskUsage)
    (cpuPercent : Except PyExc ℚ) (bootTime : Except PyExc ℚ) : HandlerOutcome :=
  match virtualMemory, diskUsage, cpuPercent, bootTime with
  | .ok mem, .ok disk, .ok cpu, .ok boot =>
      .response 200 (systemInfoBody mem disk cpu boot)
  | _, _, _, _ =>
      .response 500 (.obj [("error", .str "Failed to fetch system information")])

/-! ### `/kubernetes_info` -/

/-- The two `except` clauses of `get_kubernetes_info`:
`except ApiException as e` surfaces `e.reason`, `except Exception` is
generic. -/
def k8sInfoError : PyExc → HandlerOutcome
  | .apiException reason _ =>
      .response 500 (.obj [("error", .str ("Kubernetes API error: " ++ reason))])
  | .otherException _ =>
      .response 500 (.obj [("error", .str "Failed to fetch Kubernetes information")])

/-- The successful `/kubernetes_info` body. -/
def k8sInfoBody (ns : String) (numDeployments numServices numPods : Nat) : JValue :=
  .obj [
    ("namespace", .str ns),
    ("num_deployments", .num (numDeployments : ℚ)),
    ("num_services", .num (numServices : ℚ)),
    ("num_pods", .num (numPods : ℚ))]

/-- `get_kubernetes_info`: resolves the namespace with
`request.args.get('namespace', 'default')`, then issues the three list
calls in order (deployments, services, pods) inside one `try`; the first
call to raise aborts the remaining ones and the exception is mapped by
`k8sInfoError`. `listDeployment`, `listService`, `listPod` are the backend
oracles `apps_v1.list_namespaced_deployment`, `core_v1.list_namespaced_service`
and `core_v1.list_namespaced_pod`, each returning its `.items` list. -/
def get_kubernetes_info (args : List (String × String))
    (listDeployment listService listPod : String → Except PyExc (List String)) :
    HandlerOutcome :=
  let ns := argsGet args "namespace" "default"
  match listDeployment ns with
  | .error e => k8sInfoError e
  | .ok deployments =>
    match listService ns with
    | .error e => k8sInfoError e
    | .ok services =>
      match listPod ns with
      | .error e => k8sInfoError e
      | .ok pods =>
          .response 200 (k8sInfoBody ns deployments.length services.length pods.length)

/-! ### `/kubernetes_namespaces` -/

/-- `get_kubernetes_namespaces`: lists all namespaces; its only `except`
clause is `except Exception`, so every failure (ApiException included,
being a subclass of Exception) gets the same generic 500 body. -/
def get_kubernetes_namespaces (listNamespace : Except PyExc (List String)) :
    HandlerOutcome :=
  match listNamespace with
  | .ok nss => .response 200 (.arr (nss.map .str))
  | .error _ =>
      .response 500 (.obj [("error", .str "Failed to fetch Kubernetes namespaces")])

/-! ### `/kubernetes_nodes` -/

/-- One entry of `node.status.conditions`; only its `type` is read. -/
structure NodeCondition where
  type : String

/-- One entry of `node.status.addresses`; only its `address` is read. -/
structure NodeAddress where
  address : String

/-- A node as the handler reads it: `metadata.name`, `status.conditions`
(an absent or `None` condition list is modelled as `[]`, which is equally
falsy in Python), `status.addresses` and the `status.capacity` dict. -/
structure K8sNode where
  name : String
  conditions : List NodeCondition
  addresses : List NodeAddress
  capacity : List (String × String)

/-- `node.status.capacity.get(key)`: the capacity string, or `None` when
the key is absent. -/
def capGet (cap : List (String × String)) (key : String) : JValue :=
  match cap.find? (fun kv => kv.1 == key) with
  | some kv => .str kv.2
  | none => .null

/-- `node.status.conditions[-1].type if node.status.conditions else "Unknown"`:
the type of the last condition, or `"Unknown"` for an empty list. -/
def nodeStatus (conds : List NodeCondition) : String :=
  match conds.getLast? with
  | some c => c.type
  | none => "Unknown"

/-- The dictionary built for one node by `get_kubernetes_nodes`. -/
def nodeFields (n : K8sNode) : List (String × JValue) :=
  [("name", .str n.name),
   ("status", .str (nodeStatus n.conditions)),
   ("addresses", .arr (n.addresses.map (fun a => .str a.address))),
   ("cpu", capGet n.capacity "cpu"),
   ("memory", capGet n.capacity "memory")]

/-- The JSON object for one node. -/
def nodeJson (n : K8sNode) : JValue := .obj (nodeFields n)

/-- `get_kubernetes_nodes`: lists all nodes and maps each to `nodeJson`;
its only `except` clause is `except Exception`, so every failure gets the
same generic 500 body (an ApiException reason is never surfaced here). -/
def get_kubernetes_nodes (listNode : Except PyExc (List K8sNode)) : HandlerOutcome :=
  match listNode with
  | .ok nodes => .response 200 (.arr (nodes.map nodeJson))
  | .error _ =>
      .response 500 (.obj [("error", .str "Failed to fetch node information")])

/-! ### `/pod_metrics` -/

/-- `get_pod_metrics`: resolves the namespace with
`request.args.get('namespace', 'default')` and queries
`metrics_api.list_namespaced_custom_object(group="metrics.k8s.io",
version="v1beta1", namespace=ns, plural="pods")`. Its ONLY `except` clause
is `except ApiException as e` (returning 500 with `str(e)` as `details`);
any other exception raised by the call escapes the handler. -/
def get_pod_metrics (args : List (String × String))
    (listPodMetrics : String → Except PyExc JValue) : HandlerOutcome :=
  let ns := argsGet args "namespace" "default"
  match listPodMetrics ns with
  | .ok metrics => .response 200 metrics
  | .error (.apiException _ srepr) =>
      .response 500 (.obj [("error", .str "Failed to fetch pod metrics"),
                           ("details", .str srepr)])
  | .error (.otherException m) => .uncaught (.otherException m)

/-! ### `/scan_image` -/

/-- The outcome of `subprocess.run([...], capture_output=True, text=True,
check=True)`: either the process completed with an exit code, stdout and
stderr (`check=True` raises `CalledProcessError` when the code is nonzero),
or invoking it failed with some other exception (binary missing, etc.). -/
inductive SubprocessResult where
  | completed (exitCode : Nat) (stdout : String) (stderr : String)
  | invocationError (msg : String)

/-- The fixed scanner argument vector `['trivy', 'image', '--format',
'json']`, to which the image value is appended. -/
def trivyArgs : List String := ["trivy", "image", "--format", "json"]

/-- `scan_image`: reads `container_id` from the JSON object body with
`data.get('container_id')`; a falsy value (absent key → `None`, or `None`,
`False`, `0`, `""`, empty list/dict) short-circuits to 400 before the
subprocess oracle `runScanner` is ever consulted. Otherwise the scanner is
run with `trivyArgs` plus the image value; exit 0 yields 200 with stdout
as `scan_results`, a nonzero exit (CalledProcessError) yields 500 with
stderr as `details`, and any other invocation failure yields a generic
500. -/
def scan_image (body : List (String × JValue))
    (runScanner : List String → JValue → SubprocessResult) : HandlerOutcome :=
  let image := dictGet body "container_id"
  if truthy image then
    match runScanner trivyArgs image with
    | .completed 0 out _ =>
        .response 200 (.obj [("scan_results", .str out)])
    | .completed (_ + 1) _ err =>
        .response 500 (.obj [("error", .str "Trivy scan failed"),
                             ("details", .str err)])
    | .invocationError _ =>
        .response 500 (.obj [("error", .str "An unexpected error occurred")])
  else
    .response 400 (.obj [("error", .str "container_id is required")])

/-- A 500 response whose JSON object body carries exactly one key,
`"error"`: the shape every aborted `/kubernetes_info` request produces
(no count field can be present). -/
def errorOnlyResponse : HandlerOutcome → Bool
  | .response 500 (.obj kvs) => kvs.map Prod.fst == ["error"]
  | _ => false

/-- True exactly when the backend call raised. -/
def raised : Except PyExc α → Bool
  | .error _ => true
  | .ok _ => false

/-! ## Helper lemmas -/

/-- Both `except` branches of `get_kubernetes_info` return a response. -/
theorem isResponse_k8sInfoError (e : PyExc) : isResponse (k8sInfoError e) = true := by
  cases e <;> rfl

/-- Both `except` branches of `get_kubernetes_info` return an error-only
500 body. -/
theorem errorOnly_k8sInfoError (e : PyExc) : errorOnlyResponse (k8sInfoError e) = true := by
  cases e <;> rfl

/-! ## Claims -/

/-- Claim C1, counterexample: a provider failure that is not an
`ApiException` — here a plain connection error — escapes the pod-metrics
handler uncaught instead of being converted into a 500 JSON error body. -/
theorem C1_pod_metrics_counterexample :
    get_pod_metrics [] (fun _ => .error (.otherException "connection refused"))
      = .uncaught (.otherException "connection refused") ∧
    isResponse (get_pod_metrics []
      (fun _ => .error (.otherException "connection refused"))) = false :=
  ⟨rfl, rfl⟩

/-- Claim C1, amended: six of the seven handlers are failure boundaries —
whatever their backend outcome, they return a JSON response and no
exception escapes; the pod-metrics handler, however, catches only
control-plane `ApiException`s (converting them to a 500 body with
`details`), and any other provider exception propagates past it. -/
theorem C1_failure_boundaries
    (vm : Except PyExc VirtualMemory) (du : Except PyExc DiskUsage)
    (cp bt : Except PyExc ℚ)
    (args : List (String × String))
    (d s p : String → Except PyExc (List String))
    (lns : Except PyExc (List String))
    (lnd : Except PyExc (List K8sNode))
    (body : List (String × JValue))
    (run : List String → JValue → SubprocessResult)
    (f : String → Except PyExc JValue) :
    isResponse health_check = true ∧
    isResponse (get_system_info vm du cp bt) = true ∧
    isResponse (get_kubernetes_info args d s p) = true ∧
    isResponse (get_kubernetes_namespaces lns) = true ∧
    isResponse (get_kubernetes_nodes lnd) = true ∧
    isResponse (scan_image body run) = true ∧
    (match f (argsGet args "namespace" "default") with
     | .ok v => get_pod_metrics args f = .response 200 v
     | .error (.apiException _ q) =>
         get_pod_metrics args f =
           .response 500 (.obj [("error", .str "Failed to fetch pod metrics"),
                                ("details", .str q)])
     | .error (.otherException m) =>
         get_pod_metrics args f = .uncaught (.otherException m)) := by
  refine ⟨rfl, ?_, ?_, ?_, ?_, ?_, ?_⟩
  · cases vm <;> cases du <;> cases cp <;> cases bt <;> rfl
  · simp only [get_kubernetes_info]
    cases d (argsGet args "namespace" "default") with
    | error e => exact isResponse_k8sInfoError e
    | ok ds =>
      cases s (argsGet args "namespace" "default") with
      | error e => exact isResponse_k8sInfoError e
      | ok ss =>
        cases p (argsGet args "namespace" "default") with
        | error e => exact isResponse_k8sInfoError e
        | ok ps => rfl
  · cases lns <;> rfl
  · cases lnd <;> rfl
  · simp only [scan_image]
    by_cases ht : truthy (dictGet body "container_id") = true
    · rw [ht]
      simp only [if_true]
      cases run trivyArgs (dictGet body "container_id") with
      | completed code out err => cases code <;> rfl
      | invocationError m => rfl
    · rw [Bool.not_eq_true] at ht
      rw [ht]
      rfl
  · cases hf : f (argsGet args "namespace" "default") with
    | ok v => simp only [get_pod_metrics, hf]
    | error e =>
      cases e with
      | apiException _ q => simp only [get_pod_metrics, hf]
      | otherException m => simp only [get_pod_metrics, hf]

/-- Claim C2: for every node in a successful `/kubernetes_nodes` response,
the `status` field is the type of the LAST element of the node's condition
list, `"Unknown"` for a node with no conditions; the derivation is
positional, not a lookup of the condition of type `"Ready"` (witnessed by
a list whose `"Ready"` condition is not last). -/
theorem C2_node_status (nodes : List K8sNode) (n : K8sNode) :
    get_kubernetes_nodes (.ok nodes) = .response 200 (.arr (nodes.map nodeJson)) ∧
    dictGet (nodeFields n) "status" = .str (nodeStatus n.conditions) ∧
    (match n.conditions with
     | [] => nodeStatus n.conditions = "Unknown"
     | c :: cs => nodeStatus (c :: cs) = ((c :: cs).getLast (List.cons_ne_nil c cs)).type) ∧
    nodeStatus [⟨"Ready"⟩, ⟨"MemoryPressure"⟩] = "MemoryPressure" := by
  refine ⟨rfl, rfl, ?_, rfl⟩
  cases hc : n.conditions with
  | nil => simp [nodeStatus]
  | cons c cs =>
    simp only [nodeStatus, List.getLast?_eq_getLast (c :: cs) (List.cons_ne_nil c cs)]

/-- Claim C3: `/kubernetes_info` is all-or-nothing — if any of the three
list calls for the resolved namespace raises, the handler returns a 500
whose body holds exactly one key, `"error"`, so no count is ever partially
reported. -/
theorem C3_summary_all_or_nothing (args : List (String × String))
    (d s p : String → Except PyExc (List String))
    (h : raised (d (argsGet args "namespace" "default")) = true ∨
         raised (s (argsGet args "namespace" "default")) = true ∨
         raised (p (argsGet args "namespace" "default")) = true) :
    errorOnlyResponse (get_kubernetes_info args d s p) = true := by
  simp only [get_kubernetes_info]
  cases hd : d (argsGet args "namespace" "default") with
  | error e => exact errorOnly_k8sInfoError e
  | ok ds =>
    cases hs : s (argsGet args "namespace" "default") with
    | error e => exact errorOnly_k8sInfoError e
    | ok ss =>
      cases hp : p (argsGet args "namespace" "default") with
      | error e => exact errorOnly_k8sInfoError e
      | ok ps =>
        rw [hd, hs, hp] at h
        simp [raised] at h

/-- Claim C3, witness: with the service-list call down and the other two
up, the summary handler answers with an error-only 500 body. -/
theorem C3_summary_all_or_nothing_witness :
    errorOnlyResponse (get_kubernetes_info []
      (fun _ => .ok ["web"])
      (fun _ => .error (.otherException "connection refused"))
      (fun _ => .ok [])) = true :=
  C3_summary_all_or_nothing [] _ _ _ (Or.inr (Or.inl rfl))

/-- Claim C4: when all three list calls succeed for the resolved
namespace, `/kubernetes_info` answers 200 with `num_deployments`,
`num_services` and `num_pods` equal to the respective list lengths, and
each reported count is a non-negative number. -/
theorem C4_summary_counts (args : List (String × String))
    (d s p : String → Except PyExc (List String)) (ds ss ps : List String)
    (hd : d (argsGet args "namespace" "default") = .ok ds)
    (hs : s (argsGet args "namespace" "default") = .ok ss)
    (hp : p (argsGet args "namespace" "default") = .ok ps) :
    get_kubernetes_info args d s p =
      .response 200 (k8sInfoBody (argsGet args "namespace" "default")
        ds.length ss.length ps.length) ∧
    0 ≤ (ds.length : ℚ) ∧ 0 ≤ (ss.length : ℚ) ∧ 0 ≤ (ps.length : ℚ) := by
  refine ⟨?_, Nat.cast_nonneg _, Nat.cast_nonneg _, Nat.cast_nonneg _⟩
  simp only [get_kubernetes_info]
  rw [hd, hs, hp]

/-- Claim C4, witness: two deployments, one service and no pod in
namespace `prod` are reported as 2, 1, 0. -/
theorem C4_summary_counts_witness :
    get_kubernetes_info [("namespace", "prod")]
        (fun _ => .ok ["a", "b"]) (fun _ => .ok ["s1"]) (fun _ => .ok []) =
      .response 200 (k8sInfoBody (argsGet [("namespace", "prod")] "namespace" "default")
        (["a", "b"] : List String).length (["s1"] : List String).length
        ([] : List String).length) ∧
    0 ≤ (((["a", "b"] : List String).length : ℕ) : ℚ) ∧
    0 ≤ (((["s1"] : List String).length : ℕ) : ℚ) ∧
    0 ≤ ((([] : List String).length : ℕ) : ℚ) :=
  C4_summary_counts [("namespace", "prod")] _ _ _ ["a", "b"] ["s1"] [] rfl rfl rfl

/-- Claim C5: with an empty-string image reference or with the
`container_id` key absent from the JSON body (`dict.get` returning
`None`), `/scan_image` answers 400 with `container_id is required`, and
the result does not depend on the scanner oracle at all — the subprocess
is never invoked. -/
theorem C5_scan_rejects_empty_or_missing (body : List (String × JValue))
    (runA runB : List String → JValue → SubprocessResult)
    (h : dictGet body "container_id" = .str "" ∨ dictGet body "container_id" = .null) :
    scan_image body runA = .response 400 (.obj [("error", .str "container_id is required")]) ∧
    scan_image body runA = scan_image body runB := by
  have ht : truthy (dictGet body "container_id") = false := by
    rcases h with h | h <;> rw [h] <;> rfl
  simp only [scan_image, ht]
  exact ⟨rfl, rfl⟩

/-- Claim C5, witness: an explicit empty `container_id` is rejected with
400 and the outcome is identical under two different scanner oracles. -/
theorem C5_scan_rejects_empty_or_missing_witness :
    scan_image [("container_id", .str "")] (fun _ _ => .completed 0 "report" "") =
      .response 400 (.obj [("error", .str "container_id is required")]) ∧
    scan_image [("container_id", .str "")] (fun _ _ => .completed 0 "report" "") =
      scan_image [("container_id", .str "")] (fun _ _ => .invocationError "no scanner") :=
  C5_scan_rejects_empty_or_missing _ _ _ (Or.inl rfl)

/-- Claim C6: for a non-empty image reference, `/scan_image` maps exit
code 0 to a 200 carrying the subprocess stdout verbatim as
`scan_results`, a nonzero exit to a 500 carrying its stderr as `details`,
and any other invocation failure to a generic 500. -/
theorem C6_scan_outcomes (body : List (String × JValue))
    (run : List String → JValue → SubprocessResult) (img : String)
    (himg : dictGet body "container_id" = .str img) (hne : img ≠ "") :
    match run trivyArgs (.str img) with
    | .completed 0 out _ =>
        scan_image body run = .response 200 (.obj [("scan_results", .str out)])
    | .completed (_ + 1) _ err =>
        scan_image body run =
          .response 500 (.obj [("error", .str "Trivy scan failed"),
                               ("details", .str err)])
    | .invocationError _ =>
        scan_image body run =
          .response 500 (.obj [("error", .str "An unexpected error occurred")]) := by
  have ht : truthy (JValue.str img) = true := by
    simpa [truthy] using hne
  cases hr : run trivyArgs (.str img) with
  | completed code out err =>
    cases code with
    | zero => simp only [scan_image, himg, ht, if_true, hr]
    | succ k => simp only [scan_image, himg, ht, if_true, hr]
  | invocationError m => simp only [scan_image, himg, ht, if_true, hr]

/-- Claim C6, witness: a successful scan of `alpine` returns 200 with the
scanner's stdout as `scan_results`. -/
theorem C6_scan_outcomes_witness :
    scan_image [("container_id", .str "alpine")] (fun _ _ => .completed 0 "report" "")
      = .response 200 (.obj [("scan_results", .str "report")]) :=
  C6_scan_outcomes [("container_id", .str "alpine")]
    (fun _ _ => .completed 0 "report" "") "alpine" rfl (by decide)

/-- Claim C7, counterexample: a caller who explicitly supplies an empty
`namespace` query value is NOT given the `default` fallback —
`request.args.get` returns the present-but-empty value — so a fully
successful `/kubernetes_info` response carries `namespace = ""`. -/
theorem C7_empty_namespace_counterexample :
    argsGet [("namespace", "")] "namespace" "default" = "" ∧
    get_kubernetes_info [("namespace", "")]
        (fun _ => .ok []) (fun _ => .ok []) (fun _ => .ok [])
      = .response 200 (k8sInfoBody "" 0 0 0) ∧
    k8sInfoBody "" 0 0 0 =
      .obj [("namespace", .str ""), ("num_deployments", .num 0),
            ("num_services", .num 0), ("num_pods", .num 0)] := by
  refine ⟨rfl, rfl, ?_⟩
  simp [k8sInfoBody]

/-- Claim C7, amended: the `default` fallback applies only when the
`namespace` query parameter is absent; then both namespace-taking handlers
operate on and report `"default"`. A present-but-empty value is used
verbatim, so a successful response can carry an empty namespace. -/
theorem C7_default_namespace (args : List (String × String))
    (habsent : args.find? (fun kv => kv.1 == "namespace") = none) :
    argsGet args "namespace" "default" = "default" ∧
    (∀ (d s p : String → Except PyExc (List String)) (ds ss ps : List String),
      d "default" = .ok ds → s "default" = .ok ss → p "default" = .ok ps →
      get_kubernetes_info args d s p =
        .response 200 (k8sInfoBody "default" ds.length ss.length ps.length)) ∧
    (∀ (f : String → Except PyExc JValue) (v : JValue),
      f "default" = .ok v → get_pod_metrics args f = .response 200 v) := by
  have hns : argsGet args "namespace" "default" = "default" := by
    simp only [argsGet, habsent]
  refine ⟨hns, ?_, ?_⟩
  · intro d s p ds ss ps hd hs hp
    simp only [get_kubernetes_info, hns]
    rw [hd, hs, hp]
  · intro f v hf
    simp only [get_pod_metrics, hns]
    rw [hf]

/-- Claim C7, witness: with no query parameters at all, the summary
handler reports namespace `default` and the pod-metrics handler queries
namespace `default`. -/
theorem C7_default_namespace_witness :
    argsGet [] "namespace" "default" = "default" ∧
    (∀ (d s p : String → Except PyExc (List String)) (ds ss ps : List String),
      d "default" = .ok ds → s "default" = .ok ss → p "default" = .ok ps →
      get_kubernetes_info [] d s p =
        .response 200 (k8sInfoBody "default" ds.length ss.length ps.length)) ∧
    (∀ (f : String → Except PyExc JValue) (v : JValue),
      f "default" = .ok v → get_pod_metrics [] f = .response 200 v) :=
  C7_default_namespace [] rfl

/-- Claim C8, counterexample: an `ApiException` whose reason is
`Forbidden` reaches the namespace-list and node-list handlers, yet both
answer with their fixed generic bodies — the reason string is not
surfaced, and the body does not depend on the reason at all. -/
theorem C8_reason_not_surfaced_counterexample :
    get_kubernetes_namespaces (.error (.apiException "Forbidden" "(403) Reason: Forbidden"))
      = .response 500 (.obj [("error", .str "Failed to fetch Kubernetes namespaces")]) ∧
    get_kubernetes_nodes (.error (.apiException "Forbidden" "(403) Reason: Forbidden"))
      = .response 500 (.obj [("error", .str "Failed to fetch node information")]) ∧
    get_kubernetes_namespaces (.error (.apiException "Forbidden" "x"))
      = get_kubernetes_namespaces (.error (.apiException "Timeout" "y")) ∧
    get_kubernetes_nodes (.error (.apiException "Forbidden" "x"))
      = get_kubernetes_nodes (.error (.apiException "Timeout" "y")) :=
  ⟨rfl, rfl, rfl, rfl⟩

/-- Claim C8, amended: only the cluster-summary handler distinguishes the
failure taxonomy — an `ApiException` reason is surfaced as
`Kubernetes API error: <reason>` and every other exception yields the
generic message — while the namespace-list and node-list handlers return
one fixed generic message for every failure, ApiException included. -/
theorem C8_failure_taxonomy (args : List (String × String))
    (d s p : String → Except PyExc (List String)) :
    (∀ r q, d (argsGet args "namespace" "default") = .error (.apiException r q) →
      get_kubernetes_info args d s p =
        .response 500 (.obj [("error", .str ("Kubernetes API error: " ++ r))])) ∧
    (∀ ds r q, d (argsGet args "namespace" "default") = .ok ds →
      s (argsGet args "namespace" "default") = .error (.apiException r q) →
      get_kubernetes_info args d s p =
        .response 500 (.obj [("error", .str ("Kubernetes API error: " ++ r))])) ∧
    (∀ ds ss r q, d (argsGet args "namespace" "default") = .ok ds →
      s (argsGet args "namespace" "default") = .ok ss →
      p (argsGet args "namespace" "default") = .error (.apiException r q) →
      get_kubernetes_info args d s p =
        .response 500 (.obj [("error", .str ("Kubernetes API error: " ++ r))])) ∧
    (∀ m, d (argsGet args "namespace" "default") = .error (.otherException m) →
      get_kubernetes_info args d s p =
        .response 500 (.obj [("error", .str "Failed to fetch Kubernetes information")])) ∧
    (∀ e, get_kubernetes_namespaces (.error e) =
      .response 500 (.obj [("error", .str "Failed to fetch Kubernetes namespaces")])) ∧
    (∀ e, get_kubernetes_nodes (.error e) =
      .response 500 (.obj [("error", .str "Failed to fetch node information")])) := by
  refine ⟨?_, ?_, ?_, ?_, fun e => rfl, fun e => rfl⟩
  · intro r q hd
    simp only [get_kubernetes_info]
    rw [hd]
    rfl
  · intro ds r q hd hs
    simp only [get_kubernetes_info]
    rw [hd, hs]
    rfl
  · intro ds ss r q hd hs hp
    simp only [get_kubernetes_info]
    rw [hd, hs, hp]
    rfl
  · intro m hd
    simp only [get_kubernetes_info]
    rw [hd]
    rfl

/-- Claim C9, counterexample: the snapshot handler copies the OS counters
verbatim, so counters reporting `memory.percent = 150`,
`memory.used = 150 > memory.total = 100` and `disk.percent = 150` produce
a successful 200 response whose fields violate every one of the claimed
bounds (150 exceeds 100). -/
theorem C9_snapshot_counterexample :
    get_system_info (.ok ⟨100, 0, 150, 150⟩) (.ok ⟨100, 150, 0, 150⟩) (.ok 3) (.ok 7)
      = .response 200 (systemInfoBody ⟨100, 0, 150, 150⟩ ⟨100, 150, 0, 150⟩ 3 7) ∧
    (100 : ℚ) < 150 :=
  ⟨rfl, by norm_num⟩

/-- Claim C9, amended: every successful `/system_info` response copies the
OS counters verbatim, so its memory and disk percentages lie in `[0, 100]`
and its memory `used` does not exceed `total` exactly when the underlying
OS counters already satisfy those bounds. -/
theorem C9_snapshot_bounds (mem : VirtualMemory) (disk : DiskUsage) (cpu boot : ℚ)
    (hm0 : 0 ≤ mem.percent) (hm1 : mem.percent ≤ 100)
    (hd0 : 0 ≤ disk.percent) (hd1 : disk.percent ≤ 100)
    (hu : mem.used ≤ mem.total) :
    get_system_info (.ok mem) (.ok disk) (.ok cpu) (.ok boot)
      = .response 200 (systemInfoBody mem disk cpu boot) ∧
    (0 ≤ mem.percent ∧ mem.percent ≤ 100) ∧
    (0 ≤ disk.percent ∧ disk.percent ≤ 100) ∧
    mem.used ≤ mem.total :=
  ⟨rfl, ⟨hm0, hm1⟩, ⟨hd0, hd1⟩, hu⟩

/-- Claim C9, witness: well-formed OS counters (50% memory, 40% disk,
8 of 16 bytes used) yield a 200 snapshot satisfying all three bounds. -/
theorem C9_snapshot_bounds_witness :
    get_system_info (.ok ⟨16, 8, 8, 50⟩) (.ok ⟨100, 40, 60, 40⟩) (.ok 12) (.ok 5)
      = .response 200 (systemInfoBody ⟨16, 8, 8, 50⟩ ⟨100, 40, 60, 40⟩ 12 5) ∧
    ((0 : ℚ) ≤ 50 ∧ (50 : ℚ) ≤ 100) ∧
    ((0 : ℚ) ≤ 40 ∧ (40 : ℚ) ≤ 100) ∧
    (8 : ℚ) ≤ 16 :=
  C9_snapshot_bounds ⟨16, 8, 8, 50⟩ ⟨100, 40, 60, 40⟩ 12 5
    (by norm_num) (by norm_num) (by norm_num) (by norm_num) (by norm_num)

/-- Claim C10: every falsy `container_id` — the key absent (`dict.get`
gives `None`), or bound to `null`, `false`, `0` or `""` — takes the same
short-circuit: the handler answers 400 with `container_id is required`
independently of the scanner oracle, so the subprocess is never spawned. -/
theorem C10_falsy_container_id (body : List (String × JValue))
    (runA runB : List String → JValue → SubprocessResult)
    (h : truthy (dictGet body "container_id") = false) :
    scan_image body runA = .response 400 (.obj [("error", .str "container_id is required")]) ∧
    scan_image body runA = scan_image body runB ∧
    truthy .null = false ∧ truthy (.bool false) = false ∧
    truthy (.num 0) = false ∧ truthy (.str "") = false ∧
    dictGet [] "container_id" = .null := by
  simp only [scan_image, h]
  refine ⟨rfl, rfl, rfl, rfl, ?_, rfl, rfl⟩
  simp [truthy]

/-- Claim C10, witness: a body carrying `container_id: 0` gets the same
400 as a missing key, under either scanner oracle. -/
theorem C10_falsy_container_id_witness :
    scan_image [("container_id", .num 0)] (fun _ _ => .completed 0 "report" "")
      = .response 400 (.obj [("error", .str "container_id is required")]) ∧
    scan_image [("container_id", .num 0)] (fun _ _ => .completed 0 "report" "")
      = scan_image [("container_id", .num 0)] (fun _ _ => .invocationError "missing") ∧
    truthy .null = false ∧ truthy (.bool false) = false ∧
    truthy (.num 0) = false ∧ truthy (.str "") = false ∧
    dictGet [] "container_id" = .null :=
  C10_falsy_container_id _ _ _ (by simp [dictGet, truthy])

end SystemInfo
